import Mathlib

/-!
Verification model of the mks-servo42 driver crate.

The crate is a transport-agnostic codec for the MKS SERVO42 serial
protocol.  `src/lib.rs` holds the command-frame builders (a `Driver`
with a slave address and a 10-byte scratch buffer; every builder packs
`[address, opcode, payload...]` into the buffer and appends a mod-256
checksum).  `src/helpers.rs` holds the response parsers: each scans a
byte buffer offset by offset for a window that starts with an address
byte in 0xE0..=0xE9, has enough remaining bytes, and whose checksum
byte matches, then decodes the window.

Bytes are modelled as `Nat` (the Rust code only ever produces values
< 256; every arithmetic step that truncates to `u8` in Rust is modelled
with an explicit `% 256`).  The Rust parsers' slice indexing can go out
of bounds (and panic); that outcome is modelled explicitly where it is
reachable.
-/

namespace MksServo42

/-! ## Constants (src/lib.rs) -/

def DEFAULT_ADDRESS : Nat := 0xE0

def MIN_ADDRESS : Nat := 0xE0

def MAX_ADDRESS : Nat := 0xE9

def MAX_SPEED : Nat := 0x7F

def MAX_CURRENT_INDEX : Nat := 0x0F

def MAX_SUBDIVISION_INDEX : Nat := 0x08

def MAX_ZERO_SPEED : Nat := 0x04

def MAX_TORQUE_LIMIT : Nat := 0x4B0

def CMD_BUFFER_SIZE : Nat := 10

namespace cmd

def READ_ENCODER_VALUE : Nat := 0x30

def READ_PULSE_COUNT : Nat := 0x33

def READ_MOTOR_SHAFT_ANGLE : Nat := 0x36

def READ_MOTOR_SHAFT_ANGLE_ERROR : Nat := 0x39

def READ_EN_PIN_STATUS : Nat := 0x3A

def READ_RELEASE_STATUS : Nat := 0x3D

def READ_SHAFT_STATUS : Nat := 0x3E

def SAVE_CLEAR_STATUS : Nat := 0xFF

def CALIBRATE_ENCODER : Nat := 0x80

def SET_CURRENT_LIMIT : Nat := 0x83

def SET_SUBDIVISION : Nat := 0x84

def SET_EN_LOGIC : Nat := 0x85

def SET_DIRECTION : Nat := 0x86

def SET_AUTO_SCREEN_OFF : Nat := 0x87

def SET_PROTECTION : Nat := 0x88

def SET_INTERPOLATION : Nat := 0x89

def SET_ZERO_MODE : Nat := 0x90

def SET_CURRENT_AS_ZERO : Nat := 0x91

def SET_ZERO_SPEED : Nat := 0x92

def SET_ZERO_DIRECTION : Nat := 0x93

def GO_TO_ZERO : Nat := 0x94

def SET_POSITION_KP : Nat := 0xA1

def SET_POSITION_KI : Nat := 0xA2

def SET_POSITION_KD : Nat := 0xA3

def SET_ACCELERATION : Nat := 0xA4

def SET_MAX_TORQUE : Nat := 0xA5

def ENABLE_MOTOR : Nat := 0xF3

def RUN_WITH_CONSTANT_SPEED : Nat := 0xF6

def STOP : Nat := 0xF7

def RUN_MOTOR : Nat := 0xFD

end cmd

/-! ## Enums and errors (src/enums.rs, src/errors.rs) -/

inductive Error where
  | InvalidValue : Error
  | Checksum : Error
  | InvalidPacket : Error
deriving DecidableEq, Repr

instance {ε α : Type} [DecidableEq ε] [DecidableEq α] : DecidableEq (Except ε α)
  | .ok a, .ok b =>
    if h : a = b then .isTrue (by rw [h])
    else .isFalse (by intro hh; cases hh; exact h rfl)
  | .ok _, .error _ => .isFalse (by intro hh; cases hh)
  | .error _, .ok _ => .isFalse (by intro hh; cases hh)
  | .error e, .error f =>
    if h : e = f then .isTrue (by rw [h])
    else .isFalse (by intro hh; cases hh; exact h rfl)

inductive RotationDirection where
  | Clockwise : RotationDirection
  | CounterClockwise : RotationDirection
deriving DecidableEq, Repr

/-- Numeric discriminant of `RotationDirection` (`direction as u8`). -/
def RotationDirection.as_u8 : RotationDirection → Nat
  | .Clockwise => 0x00
  | .CounterClockwise => 0x01

inductive EnLogic where
  | Low : EnLogic
  | High : EnLogic
  | AlwaysOn : EnLogic
deriving DecidableEq, Repr

def EnLogic.as_u8 : EnLogic → Nat
  | .Low => 0x00
  | .High => 0x01
  | .AlwaysOn => 0x02

inductive ZeroMode where
  | Disable : ZeroMode
  | DirMode : ZeroMode
  | NearMode : ZeroMode
deriving DecidableEq, Repr

def ZeroMode.as_u8 : ZeroMode → Nat
  | .Disable => 0x00
  | .DirMode => 0x01
  | .NearMode => 0x02

inductive SaveClearStatus where
  | Save : SaveClearStatus
  | Clear : SaveClearStatus
deriving DecidableEq, Repr

def SaveClearStatus.as_u8 : SaveClearStatus → Nat
  | .Save => 0xC8
  | .Clear => 0xCA

inductive ShaftStatus where
  | Blocked : ShaftStatus
  | Unblocked : ShaftStatus
  | Error : ShaftStatus
deriving DecidableEq, Repr

inductive EnPinStatus where
  | Enabled : EnPinStatus
  | Disabled : EnPinStatus
  | Error : EnPinStatus
deriving DecidableEq, Repr

/-! ## Decoded value types (src/helpers.rs) -/

structure EncoderValue where
  carry : Int
  value : Nat
deriving DecidableEq, Repr

structure ShaftErrValue where
  value : Int
deriving DecidableEq, Repr

structure MotorShaftAngle where
  value : Int
deriving DecidableEq, Repr

/-! ## Big-endian byte (de)coding -/

/-- `u16::from_be_bytes([b0, b1])`. -/
def u16_from_be (b0 b1 : Nat) : Nat := b0 * 256 + b1

/-- `i16::from_be_bytes([b0, b1])` (two's complement). -/
def i16_from_be (b0 b1 : Nat) : Int :=
  let n := b0 * 256 + b1
  if n < 32768 then (n : Int) else (n : Int) - 65536

/-- `i32::from_be_bytes([b0, b1, b2, b3])` (two's complement). -/
def i32_from_be (b0 b1 b2 b3 : Nat) : Int :=
  let n := ((b0 * 256 + b1) * 256 + b2) * 256 + b3
  if n < 2147483648 then (n : Int) else (n : Int) - 4294967296

/-- `u32::to_be_bytes` of a pulse count (high bits beyond 32 are the
`u32` truncation of the Rust value). -/
def u32_to_be_bytes (n : Nat) : List Nat :=
  [n / 2 ^ 24 % 256, n / 2 ^ 16 % 256, n / 2 ^ 8 % 256, n % 256]

/-- `u16::to_be_bytes`. -/
def u16_to_be_bytes (n : Nat) : List Nat :=
  [n / 2 ^ 8 % 256, n % 256]

/-- Address-range test `data[idx] >= MIN_ADDRESS && data[idx] <= MAX_ADDRESS`
(the shaft-angle parser writes the same 0xE0..=0xE9 range literally). -/
def addr_ok (b : Nat) : Bool :=
  decide (MIN_ADDRESS ≤ b) && decide (b ≤ MAX_ADDRESS)

/-! ## The scan loop shared by every parser

Each Rust parser is a `while idx < data.len()` loop; the loop body
looks only at the suffix `data[idx..]` and either produces a definitive
outcome (`return ...`, or an out-of-bounds slice access) or advances
`idx` by one.  `Step` is one loop iteration's verdict on a suffix and
`scanFrom` is the loop itself. -/

inductive Step (α : Type) where
  | stop : α → Step α
  | next : Step α
deriving DecidableEq, Repr

def Step.isStop {α : Type} : Step α → Bool
  | .stop _ => true
  | .next => false

def Step.result {α : Type} (fail : α) : Step α → α
  | .stop r => r
  | .next => fail

def scanFrom {α : Type} (f : List Nat → Step α) (fail : α) : List Nat → α
  | [] => fail
  | b :: rest =>
    match f (b :: rest) with
    | .stop r => r
    | .next => scanFrom f fail rest

/-! ## parse_encoder_response (src/helpers.rs lines 46-73)

The loop guard is `data[idx] in 0xE0..=0xE9 && idx + 5 < data.len()`
(i.e. at least 6 bytes remain), but the body then sums
`data[idx..idx + 7]` and indexes `data[idx + 7]`, which need 8 bytes:
with only 6 or 7 bytes remaining the slice/index is out of bounds and
the Rust code panics.  `EncParse.indexOutOfBounds` models that panic. -/

inductive EncParse where
  | ok : EncoderValue → EncParse
  | err : Error → EncParse
  | indexOutOfBounds : EncParse
deriving DecidableEq, Repr

def parse_encoder_step : List Nat → Step EncParse
  | b0 :: b1 :: b2 :: b3 :: b4 :: b5 :: rest =>
    -- guard: address in range and idx + 5 < data.len()
    if addr_ok b0 then
      match rest with
      | b6 :: b7 :: _ =>
        -- sum over data[idx..idx + 7], compared as u8 with data[idx + 7]
        if (b0 + b1 + b2 + b3 + b4 + b5 + b6) % 256 = b7 then
          Step.stop (.ok ⟨i32_from_be b1 b2 b3 b4, u16_from_be b5 b6⟩)
        else
          Step.next
      | _ =>
        -- fewer than 8 bytes remain: data[idx..idx + 7] / data[idx + 7]
        -- read past the end of the buffer
        Step.stop .indexOutOfBounds
    else
      Step.next
  | _ => Step.next

def parse_encoder_response (data : List Nat) : EncParse :=
  scanFrom parse_encoder_step (.err .InvalidPacket) data

/-! ## parse_motor_shaft_angle_error (src/helpers.rs lines 100-127)

Guard `idx + 4 < data.len()` (5 bytes remain, the full frame); a
non-zero trailing byte or a checksum mismatch advances the scan. -/

def parse_motor_shaft_angle_error_step : List Nat → Step (Except Error ShaftErrValue)
  | b0 :: b1 :: b2 :: b3 :: b4 :: _ =>
    if addr_ok b0 then
      if b4 ≠ 0x00 then Step.next
      else if (b0 + b1 + b2) % 256 ≠ b3 then Step.next
      else Step.stop (.ok ⟨i16_from_be b1 b2⟩)
    else
      Step.next
  | _ => Step.next

def parse_motor_shaft_angle_error (data : List Nat) : Except Error ShaftErrValue :=
  scanFrom parse_motor_shaft_angle_error_step (.error .InvalidPacket) data

/-! ## parse_motor_shaft_angle_response (src/helpers.rs lines 153-173)

Guard `idx + 5 < data.len()` (6 bytes remain, the full frame). -/

def parse_motor_shaft_angle_response_step : List Nat → Step (Except Error MotorShaftAngle)
  | b0 :: b1 :: b2 :: b3 :: b4 :: b5 :: _ =>
    if addr_ok b0 then
      if (b0 + b1 + b2 + b3 + b4) % 256 = b5 then
        Step.stop (.ok ⟨i32_from_be b1 b2 b3 b4⟩)
      else
        Step.next
    else
      Step.next
  | _ => Step.next

def parse_motor_shaft_angle_response (data : List Nat) : Except Error MotorShaftAngle :=
  scanFrom parse_motor_shaft_angle_response_step (.error .InvalidPacket) data

/-! ## parse_en_pin_status_response (src/helpers.rs lines 194-216)

Guard `idx + 2 < data.len()` (3 bytes remain).  Once the checksum
matches, the status byte decides the result: an unknown status byte is
an immediate `Err(InvalidPacket)` (a `return`, not a `continue`). -/

def parse_en_pin_status_response_step : List Nat → Step (Except Error EnPinStatus)
  | b0 :: b1 :: b2 :: _ =>
    if addr_ok b0 then
      if (b0 + b1) % 256 = b2 then
        Step.stop
          (match b1 with
            | 0x01 => .ok .Enabled
            | 0x02 => .ok .Disabled
            | 0x00 => .ok .Error
            | _ => .error .InvalidPacket)
      else
        Step.next
    else
      Step.next
  | _ => Step.next

def parse_en_pin_status_response (data : List Nat) : Except Error EnPinStatus :=
  scanFrom parse_en_pin_status_response_step (.error .InvalidPacket) data

/-! ## parse_shaft_status_response (src/helpers.rs lines 226-249)

An explicit `data.len() < 3` early failure, then a loop over
`data.windows(3)`; the checksum is `addr.wrapping_add(status)`.  As
with the EN-pin parser, a checksum match with an unknown status byte
returns `Err(InvalidPacket)` immediately.  (`windows(3)` stops 3 bytes
before the end; `scanFrom` visiting the final 1- and 2-byte suffixes is
equivalent because the step yields `next` on them.) -/

def parse_shaft_status_response_step : List Nat → Step (Except Error ShaftStatus)
  | b0 :: b1 :: b2 :: _ =>
    if addr_ok b0 then
      if (b0 + b1) % 256 = b2 then
        Step.stop
          (match b1 with
            | 0x01 => .ok .Blocked
            | 0x02 => .ok .Unblocked
            | 0x00 => .ok .Error
            | _ => .error .InvalidPacket)
      else
        Step.next
    else
      Step.next
  | _ => Step.next

def parse_shaft_status_response (data : List Nat) : Except Error ShaftStatus :=
  if data.length < 3 then .error .InvalidPacket
  else scanFrom parse_shaft_status_response_step (.error .InvalidPacket) data

/-! ## Command building (src/lib.rs) -/

structure Driver where
  address : Nat
  buffer : List Nat
deriving DecidableEq, Repr

def Driver.default : Driver :=
  { address := DEFAULT_ADDRESS, buffer := List.replicate CMD_BUFFER_SIZE 0 }

def Driver.with_address (address : Nat) : Driver :=
  { address := address, buffer := List.replicate CMD_BUFFER_SIZE 0 }

/-- `calculate_checksum`: fold of `u8::wrapping_add` starting at 0. -/
def calculate_checksum (bytes : List Nat) : Nat :=
  bytes.foldl (fun acc b => (acc + b) % 256) 0

/-- `build_command`: writes `bytes` into `buffer[..len]`, the checksum
into `buffer[len]`, and returns the slice `buffer[..=len]` together
with the updated driver.  (In Rust the returned slice borrows the
buffer; here it is returned by value.) -/
def Driver.build_command (d : Driver) (bytes : List Nat) : List Nat × Driver :=
  let out := bytes ++ [calculate_checksum bytes]
  (out, { d with buffer := out ++ d.buffer.drop (bytes.length + 1) })

def Driver.enable_motor (d : Driver) (enable : Bool) : List Nat × Driver :=
  d.build_command [d.address, cmd.ENABLE_MOTOR, if enable then 1 else 0]

/-- The `dir_mask` match written inline in `run_with_constant_speed`
and `run_motor`: 0x00 for Clockwise, 0x80 for CounterClockwise. -/
def RotationDirection.dir_mask : RotationDirection → Nat
  | .Clockwise => 0x00
  | .CounterClockwise => 0x80

def Driver.run_with_constant_speed (d : Driver) (direction : RotationDirection)
    (speed : Nat) : Except Error (List Nat) × Driver :=
  if speed > MAX_SPEED then (.error .InvalidValue, d)
  else
    let r := d.build_command
      [d.address, cmd.RUN_WITH_CONSTANT_SPEED, speed ||| direction.dir_mask]
    (.ok r.1, r.2)

def Driver.stop (d : Driver) : List Nat × Driver :=
  d.build_command [d.address, cmd.STOP]

def Driver.save_clear_status (d : Driver) (operation : SaveClearStatus) :
    List Nat × Driver :=
  d.build_command [d.address, cmd.SAVE_CLEAR_STATUS, operation.as_u8]

def Driver.run_motor (d : Driver) (direction : RotationDirection) (speed : Nat)
    (pulses : Nat) : Except Error (List Nat) × Driver :=
  if speed > MAX_SPEED then (.error .InvalidValue, d)
  else
    let r := d.build_command
      ([d.address, cmd.RUN_MOTOR, speed ||| direction.dir_mask] ++ u32_to_be_bytes pulses)
    (.ok r.1, r.2)

def Driver.calibrate_encoder (d : Driver) : List Nat × Driver :=
  d.build_command [d.address, cmd.CALIBRATE_ENCODER, 0x00]

def Driver.set_current_limit (d : Driver) (index : Nat) :
    Except Error (List Nat) × Driver :=
  if index > MAX_CURRENT_INDEX then (.error .InvalidValue, d)
  else
    let r := d.build_command [d.address, cmd.SET_CURRENT_LIMIT, index]
    (.ok r.1, r.2)

def Driver.set_subdivision (d : Driver) (step_index : Nat) :
    Except Error (List Nat) × Driver :=
  if step_index > MAX_SUBDIVISION_INDEX then (.error .InvalidValue, d)
  else
    let r := d.build_command [d.address, cmd.SET_SUBDIVISION, step_index]
    (.ok r.1, r.2)

def Driver.set_enable_logic (d : Driver) (logic : EnLogic) : List Nat × Driver :=
  d.build_command [d.address, cmd.SET_EN_LOGIC, logic.as_u8]

def Driver.set_direction (d : Driver) (direction : RotationDirection) :
    List Nat × Driver :=
  d.build_command [d.address, cmd.SET_DIRECTION, direction.as_u8]

def Driver.set_auto_screen_off (d : Driver) (enable : Bool) : List Nat × Driver :=
  -- payload is u8::from(!enable)
  d.build_command [d.address, cmd.SET_AUTO_SCREEN_OFF, if enable then 0 else 1]

def Driver.set_stall_protection (d : Driver) (enable : Bool) : List Nat × Driver :=
  d.build_command [d.address, cmd.SET_PROTECTION, if enable then 0 else 1]

def Driver.set_interpolation (d : Driver) (enable : Bool) : List Nat × Driver :=
  d.build_command [d.address, cmd.SET_INTERPOLATION, if enable then 0 else 1]

def Driver.set_zero_mode (d : Driver) (mode : ZeroMode) : List Nat × Driver :=
  d.build_command [d.address, cmd.SET_ZERO_MODE, mode.as_u8]

def Driver.set_current_as_zero (d : Driver) : List Nat × Driver :=
  d.build_command [d.address, cmd.SET_CURRENT_AS_ZERO, 0x00]

def Driver.set_zero_speed (d : Driver) (speed : Nat) :
    Except Error (List Nat) × Driver :=
  if speed > MAX_ZERO_SPEED then (.error .InvalidValue, d)
  else
    let r := d.build_command [d.address, cmd.SET_ZERO_SPEED, speed]
    (.ok r.1, r.2)

def Driver.go_to_zero (d : Driver) : List Nat × Driver :=
  d.build_command [d.address, cmd.GO_TO_ZERO, 0x00]

def Driver.set_zero_direction (d : Driver) (direction : RotationDirection) :
    List Nat × Driver :=
  d.build_command [d.address, cmd.SET_ZERO_DIRECTION, direction.as_u8]

def Driver.set_position_kp (d : Driver) (value : Nat) : List Nat × Driver :=
  d.build_command ([d.address, cmd.SET_POSITION_KP] ++ u16_to_be_bytes value)

def Driver.set_position_ki (d : Driver) (value : Nat) : List Nat × Driver :=
  d.build_command ([d.address, cmd.SET_POSITION_KI] ++ u16_to_be_bytes value)

def Driver.set_position_kd (d : Driver) (value : Nat) : List Nat × Driver :=
  d.build_command ([d.address, cmd.SET_POSITION_KD] ++ u16_to_be_bytes value)

def Driver.set_acceleration (d : Driver) (value : Nat) : List Nat × Driver :=
  d.build_command ([d.address, cmd.SET_ACCELERATION] ++ u16_to_be_bytes value)

def Driver.set_max_torque (d : Driver) (value : Nat) :
    Except Error (List Nat) × Driver :=
  if value > MAX_TORQUE_LIMIT then (.error .InvalidValue, d)
  else
    let r := d.build_command ([d.address, cmd.SET_MAX_TORQUE] ++ u16_to_be_bytes value)
    (.ok r.1, r.2)

def Driver.read_shaft_status (d : Driver) : List Nat × Driver :=
  d.build_command [d.address, cmd.READ_SHAFT_STATUS]

def Driver.read_encoder_value (d : Driver) : List Nat × Driver :=
  d.build_command [d.address, cmd.READ_ENCODER_VALUE]

def Driver.read_pulse_count (d : Driver) : List Nat × Driver :=
  d.build_command [d.address, cmd.READ_PULSE_COUNT]

def Driver.read_motor_shaft_angle (d : Driver) : List Nat × Driver :=
  d.build_command [d.address, cmd.READ_MOTOR_SHAFT_ANGLE]

def Driver.read_en_pin_status (d : Driver) : List Nat × Driver :=
  d.build_command [d.address, cmd.READ_EN_PIN_STATUS]

def Driver.read_motor_shaft_angle_error (d : Driver) : List Nat × Driver :=
  d.build_command [d.address, cmd.READ_MOTOR_SHAFT_ANGLE_ERROR]

def Driver.read_release_status (d : Driver) : List Nat × Driver :=
  d.build_command [d.address, cmd.READ_RELEASE_STATUS]

/-! ## Spec-side definitions

These definitions follow the specification's words (section 4.2: scan
offsets 0..len in increasing order, accept the first offset whose
window satisfies the message's conditions, fail with the invalid-packet
error otherwise).  They are the refinement targets the parsers are
compared against; `nth s j` reads byte `j` of a window (0 when past
the end). -/

def nth : List Nat → Nat → Nat
  | [], _ => 0
  | b :: _, 0 => b
  | _ :: t, n + 1 => nth t n

/-- A command frame is well-formed when its last byte is the mod-256
wraparound sum of all preceding bytes (spec section 4.1 / section 8). -/
def checksum_ok (frame : List Nat) : Prop :=
  frame.getLast? = some (frame.dropLast.sum % 256)

/-- Spec-style stop condition of the encoder-value scan: address byte in
range, the code's length guard (6 remaining bytes), and either the
window is too short for the 8-byte frame (the scan stops by reading out
of bounds) or the checksum over bytes 0-6 matches byte 7. -/
def encoder_accept (s : List Nat) : Bool :=
  addr_ok (nth s 0) && decide (6 ≤ s.length) &&
    (decide (s.length < 8) ||
      decide ((nth s 0 + nth s 1 + nth s 2 + nth s 3 + nth s 4 + nth s 5 + nth s 6) % 256
        = nth s 7))

def encoder_decode (s : List Nat) : EncParse :=
  if s.length < 8 then .indexOutOfBounds
  else .ok ⟨i32_from_be (nth s 1) (nth s 2) (nth s 3) (nth s 4), u16_from_be (nth s 5) (nth s 6)⟩

def encoder_first_match (data : List Nat) : EncParse :=
  match (List.range data.length).find? (fun i => encoder_accept (data.drop i)) with
  | some i => encoder_decode (data.drop i)
  | none => .err .InvalidPacket

/-- Spec-style acceptance for the 6-byte shaft-angle frame: address in
range, full frame available, checksum over bytes 0-4 matches byte 5. -/
def motor_shaft_angle_accept (s : List Nat) : Bool :=
  addr_ok (nth s 0) && decide (6 ≤ s.length) &&
    decide ((nth s 0 + nth s 1 + nth s 2 + nth s 3 + nth s 4) % 256 = nth s 5)

def motor_shaft_angle_decode (s : List Nat) : Except Error MotorShaftAngle :=
  .ok ⟨i32_from_be (nth s 1) (nth s 2) (nth s 3) (nth s 4)⟩

def motor_shaft_angle_first_match (data : List Nat) : Except Error MotorShaftAngle :=
  match (List.range data.length).find? (fun i => motor_shaft_angle_accept (data.drop i)) with
  | some i => motor_shaft_angle_decode (data.drop i)
  | none => .error .InvalidPacket

/-- Spec-style acceptance for the 5-byte shaft-angle-error frame:
address in range, full frame available, trailing byte 0x00, checksum
over bytes 0-2 matches byte 3.  All four conditions are skip
conditions, as the spec states. -/
def motor_shaft_angle_error_accept (s : List Nat) : Bool :=
  addr_ok (nth s 0) && decide (5 ≤ s.length) && decide (nth s 4 = 0) &&
    decide ((nth s 0 + nth s 1 + nth s 2) % 256 = nth s 3)

def motor_shaft_angle_error_decode (s : List Nat) : Except Error ShaftErrValue :=
  .ok ⟨i16_from_be (nth s 1) (nth s 2)⟩

def motor_shaft_angle_error_first_match (data : List Nat) : Except Error ShaftErrValue :=
  match (List.range data.length).find? (fun i => motor_shaft_angle_error_accept (data.drop i)) with
  | some i => motor_shaft_angle_error_decode (data.drop i)
  | none => .error .InvalidPacket

/-- Spec-style stop condition for the 3-byte EN-pin frame: address in
range, full frame available, checksum over bytes 0-1 matches byte 2.
The status-byte constraint is NOT part of the stop condition: the first
offset passing these checks determines the result. -/
def en_pin_accept (s : List Nat) : Bool :=
  addr_ok (nth s 0) && decide (3 ≤ s.length) &&
    decide ((nth s 0 + nth s 1) % 256 = nth s 2)

def en_pin_decode (s : List Nat) : Except Error EnPinStatus :=
  match nth s 1 with
  | 0x01 => .ok .Enabled
  | 0x02 => .ok .Disabled
  | 0x00 => .ok .Error
  | _ => .error .InvalidPacket

def en_pin_first_match (data : List Nat) : Except Error EnPinStatus :=
  match (List.range data.length).find? (fun i => en_pin_accept (data.drop i)) with
  | some i => en_pin_decode (data.drop i)
  | none => .error .InvalidPacket

/-- Spec-style stop condition for the 3-byte shaft-status frame; same
shape as the EN-pin frame, checksum is address + status (mod 256). -/
def shaft_status_accept (s : List Nat) : Bool :=
  addr_ok (nth s 0) && decide (3 ≤ s.length) &&
    decide ((nth s 0 + nth s 1) % 256 = nth s 2)

def shaft_status_decode (s : List Nat) : Except Error ShaftStatus :=
  match nth s 1 with
  | 0x01 => .ok .Blocked
  | 0x02 => .ok .Unblocked
  | 0x00 => .ok .Error
  | _ => .error .InvalidPacket

def shaft_status_first_match (data : List Nat) : Except Error ShaftStatus :=
  if data.length < 3 then .error .InvalidPacket
  else
    match (List.range data.length).find? (fun i => shaft_status_accept (data.drop i)) with
    | some i => shaft_status_decode (data.drop i)
    | none => .error .InvalidPacket

/-! ## General lemmas about the scan loop and checksum fold -/

theorem foldl_wrapping_add (l : List Nat) :
    ∀ a : Nat, l.foldl (fun acc b => (acc + b) % 256) (a % 256) = (a + l.sum) % 256 := by
  induction l with
  | nil => intro a; simp
  | cons b t ih =>
    intro a
    have h1 : (a % 256 + b) % 256 = (a + b) % 256 := Nat.mod_add_mod a 256 b
    simp only [List.foldl_cons, h1, ih (a + b), List.sum_cons]
    omega

theorem calculate_checksum_eq_sum (l : List Nat) : calculate_checksum l = l.sum % 256 := by
  have h := foldl_wrapping_add l 0
  simpa [calculate_checksum] using h

theorem build_command_fst (d : Driver) (bytes : List Nat) :
    (d.build_command bytes).1 = bytes ++ [calculate_checksum bytes] := rfl

theorem build_command_address (d : Driver) (bytes : List Nat) :
    ((d.build_command bytes).2).address = d.address := rfl

theorem checksum_ok_build_command (d : Driver) (bytes : List Nat) :
    checksum_ok (d.build_command bytes).1 := by
  show checksum_ok (bytes ++ [calculate_checksum bytes])
  unfold checksum_ok
  rw [List.getLast?_concat, List.dropLast_concat, calculate_checksum_eq_sum]

/-- The scan loop computes the first-match functional: the result is
the decode of the first offset whose suffix is accepted, and the
failure value when no offset is accepted. -/
theorem scanFrom_eq_firstMatch {α : Type} (f : List Nat → Step α)
    (accept : List Nat → Bool) (fail : α) (out : List Nat → α)
    (hstop : ∀ s, (f s).isStop = accept s)
    (hout : ∀ s, accept s = true → (f s).result fail = out s) :
    ∀ data : List Nat,
      scanFrom f fail data =
        match (List.range data.length).find? (fun i => accept (data.drop i)) with
        | some i => out (data.drop i)
        | none => fail := by
  intro data
  induction data with
  | nil => simp [scanFrom]
  | cons b rest ih =>
    rw [List.length_cons, List.range_succ_eq_map]
    by_cases h : accept (b :: rest) = true
    · have hf : (f (b :: rest)).isStop = true := by rw [hstop]; exact h
      match hfb : f (b :: rest) with
      | .stop r =>
        have : out (b :: rest) = r := by
          have := hout (b :: rest) h
          rw [hfb] at this
          exact this.symm
        rw [show ((0 :: (List.range rest.length).map Nat.succ).find?
            (fun i => accept ((b :: rest).drop i)) = some 0) from ?_]
        · simp [scanFrom, hfb, this]
        · rw [List.find?_cons_of_pos]
          simpa using h
      | .next => rw [hfb] at hf; simp [Step.isStop] at hf
    · have hf : (f (b :: rest)).isStop = false := by
        rw [hstop]; exact Bool.not_eq_true _ ▸ (by simpa using h)
      have hfb : f (b :: rest) = .next := by
        match hm : f (b :: rest) with
        | .stop r => rw [hm] at hf; simp [Step.isStop] at hf
        | .next => rfl
      have hscan : scanFrom f fail (b :: rest) = scanFrom f fail rest := by
        simp [scanFrom, hfb]
      rw [hscan, ih]
      rw [List.find?_cons_of_neg _ (by simpa using h)]
      rw [List.find?_map]
      have hcomp : ∀ i : Nat,
          ((fun i => accept ((b :: rest).drop i)) ∘ Nat.succ) i
            = accept (rest.drop i) := by
        intro i
        simp [Function.comp, List.drop_succ_cons]
      rw [funext hcomp]
      cases hfind : (List.range rest.length).find? (fun i => accept (rest.drop i)) with
      | none => simp
      | some i => simp [List.drop_succ_cons]

/-- Skipping a prefix in which the scan never stops does not change the
scan's result. -/
theorem scanFrom_append {α : Type} (f : List Nat → Step α) (fail : α)
    (G F : List Nat)
    (h : ∀ i, i < G.length → (f ((G ++ F).drop i)).isStop = false) :
    scanFrom f fail (G ++ F) = scanFrom f fail F := by
  induction G with
  | nil => simp
  | cons g G ih =>
    have h0 : (f (g :: (G ++ F))).isStop = false := by
      have := h 0 (by simp)
      simpa using this
    have hfb : f (g :: (G ++ F)) = .next := by
      match hm : f (g :: (G ++ F)) with
      | .stop r => rw [hm] at h0; simp [Step.isStop] at h0
      | .next => rfl
    have : scanFrom f fail ((g :: G) ++ F) = scanFrom f fail (G ++ F) := by
      simp [scanFrom, hfb]
    rw [this]
    exact ih (fun i hi => by
      have := h (i + 1) (by simpa using Nat.succ_lt_succ hi)
      simpa [List.drop_succ_cons] using this)

/-! ## Pointwise step/spec correspondence, one pair of lemmas per parser -/

theorem parse_en_pin_status_response_step_isStop (s : List Nat) :
    (parse_en_pin_status_response_step s).isStop = en_pin_accept s := by
  rcases s with _ | ⟨b0, _ | ⟨b1, _ | ⟨b2, tl⟩⟩⟩
  · simp [parse_en_pin_status_response_step, en_pin_accept, nth, Step.isStop]
  · simp [parse_en_pin_status_response_step, en_pin_accept, nth, Step.isStop]
  · simp [parse_en_pin_status_response_step, en_pin_accept, nth, Step.isStop]
  · cases ha : addr_ok b0
    · simp [parse_en_pin_status_response_step, en_pin_accept, nth, Step.isStop, ha]
    · by_cases hc : (b0 + b1) % 256 = b2
      · simp [parse_en_pin_status_response_step, en_pin_accept, nth, Step.isStop, ha, hc]
      · simp [parse_en_pin_status_response_step, en_pin_accept, nth, Step.isStop, ha, hc]

theorem parse_en_pin_status_response_step_result (s : List Nat)
    (h : en_pin_accept s = true) :
    (parse_en_pin_status_response_step s).result (.error .InvalidPacket)
      = en_pin_decode s := by
  rcases s with _ | ⟨b0, _ | ⟨b1, _ | ⟨b2, tl⟩⟩⟩
  · simp [en_pin_accept, nth] at h
  · simp [en_pin_accept, nth] at h
  · simp [en_pin_accept, nth] at h
  · simp only [en_pin_accept, nth, Bool.and_eq_true, decide_eq_true_eq] at h
    obtain ⟨⟨ha, -⟩, hc⟩ := h
    simp [parse_en_pin_status_response_step, en_pin_decode, nth, ha, hc, Step.result]

theorem parse_shaft_status_response_step_isStop (s : List Nat) :
    (parse_shaft_status_response_step s).isStop = shaft_status_accept s := by
  rcases s with _ | ⟨b0, _ | ⟨b1, _ | ⟨b2, tl⟩⟩⟩
  · simp [parse_shaft_status_response_step, shaft_status_accept, nth, Step.isStop]
  · simp [parse_shaft_status_response_step, shaft_status_accept, nth, Step.isStop]
  · simp [parse_shaft_status_response_step, shaft_status_accept, nth, Step.isStop]
  · cases ha : addr_ok b0
    · simp [parse_shaft_status_response_step, shaft_status_accept, nth, Step.isStop, ha]
    · by_cases hc : (b0 + b1) % 256 = b2
      · simp [parse_shaft_status_response_step, shaft_status_accept, nth, Step.isStop, ha, hc]
      · simp [parse_shaft_status_response_step, shaft_status_accept, nth, Step.isStop, ha, hc]

theorem parse_shaft_status_response_step_result (s : List Nat)
    (h : shaft_status_accept s = true) :
    (parse_shaft_status_response_step s).result (.error .InvalidPacket)
      = shaft_status_decode s := by
  rcases s with _ | ⟨b0, _ | ⟨b1, _ | ⟨b2, tl⟩⟩⟩
  · simp [shaft_status_accept, nth] at h
  · simp [shaft_status_accept, nth] at h
  · simp [shaft_status_accept, nth] at h
  · simp only [shaft_status_accept, nth, Bool.and_eq_true, decide_eq_true_eq] at h
    obtain ⟨⟨ha, -⟩, hc⟩ := h
    simp [parse_shaft_status_response_step, shaft_status_decode, nth, ha, hc, Step.result]

theorem parse_motor_shaft_angle_response_step_isStop (s : List Nat) :
    (parse_motor_shaft_angle_response_step s).isStop = motor_shaft_angle_accept s := by
  rcases s with _ | ⟨b0, _ | ⟨b1, _ | ⟨b2, _ | ⟨b3, _ | ⟨b4, _ | ⟨b5, tl⟩⟩⟩⟩⟩⟩
  · simp [parse_motor_shaft_angle_response_step, motor_shaft_angle_accept, nth, Step.isStop]
  · simp [parse_motor_shaft_angle_response_step, motor_shaft_angle_accept, nth, Step.isStop]
  · simp [parse_motor_shaft_angle_response_step, motor_shaft_angle_accept, nth, Step.isStop]
  · simp [parse_motor_shaft_angle_response_step, motor_shaft_angle_accept, nth, Step.isStop]
  · simp [parse_motor_shaft_angle_response_step, motor_shaft_angle_accept, nth, Step.isStop]
  · simp [parse_motor_shaft_angle_response_step, motor_shaft_angle_accept, nth, Step.isStop]
  · cases ha : addr_ok b0
    · simp [parse_motor_shaft_angle_response_step, motor_shaft_angle_accept, nth,
        Step.isStop, ha]
    · by_cases hc : (b0 + b1 + b2 + b3 + b4) % 256 = b5
      · simp [parse_motor_shaft_angle_response_step, motor_shaft_angle_accept, nth,
          Step.isStop, ha, hc]
      · simp [parse_motor_shaft_angle_response_step, motor_shaft_angle_accept, nth,
          Step.isStop, ha, hc]

theorem parse_motor_shaft_angle_response_step_result (s : List Nat)
    (h : motor_shaft_angle_accept s = true) :
    (parse_motor_shaft_angle_response_step s).result (.error .InvalidPacket)
      = motor_shaft_angle_decode s := by
  rcases s with _ | ⟨b0, _ | ⟨b1, _ | ⟨b2, _ | ⟨b3, _ | ⟨b4, _ | ⟨b5, tl⟩⟩⟩⟩⟩⟩
  · simp [motor_shaft_angle_accept, nth] at h
  · simp [motor_shaft_angle_accept, nth] at h
  · simp [motor_shaft_angle_accept, nth] at h
  · simp [motor_shaft_angle_accept, nth] at h
  · simp [motor_shaft_angle_accept, nth] at h
  · simp [motor_shaft_angle_accept, nth] at h
  · simp only [motor_shaft_angle_accept, nth, Bool.and_eq_true, decide_eq_true_eq] at h
    obtain ⟨⟨ha, -⟩, hc⟩ := h
    simp [parse_motor_shaft_angle_response_step, motor_shaft_angle_decode, nth,
      ha, hc, Step.result]

theorem parse_motor_shaft_angle_error_step_isStop (s : List Nat) :
    (parse_motor_shaft_angle_error_step s).isStop = motor_shaft_angle_error_accept s := by
  rcases s with _ | ⟨b0, _ | ⟨b1, _ | ⟨b2, _ | ⟨b3, _ | ⟨b4, tl⟩⟩⟩⟩⟩
  · simp [parse_motor_shaft_angle_error_step, motor_shaft_angle_error_accept, nth, Step.isStop]
  · simp [parse_motor_shaft_angle_error_step, motor_shaft_angle_error_accept, nth, Step.isStop]
  · simp [parse_motor_shaft_angle_error_step, motor_shaft_angle_error_accept, nth, Step.isStop]
  · simp [parse_motor_shaft_angle_error_step, motor_shaft_angle_error_accept, nth, Step.isStop]
  · simp [parse_motor_shaft_angle_error_step, motor_shaft_angle_error_accept, nth, Step.isStop]
  · cases ha : addr_ok b0
    · simp [parse_motor_shaft_angle_error_step, motor_shaft_angle_error_accept, nth,
        Step.isStop, ha]
    · by_cases h4 : b4 = 0
      · by_cases hc : (b0 + b1 + b2) % 256 = b3
        · simp [parse_motor_shaft_angle_error_step, motor_shaft_angle_error_accept, nth,
            Step.isStop, ha, h4, hc]
        · simp [parse_motor_shaft_angle_error_step, motor_shaft_angle_error_accept, nth,
            Step.isStop, ha, h4, hc]
      · simp [parse_motor_shaft_angle_error_step, motor_shaft_angle_error_accept, nth,
          Step.isStop, ha, h4]

theorem parse_motor_shaft_angle_error_step_result (s : List Nat)
    (h : motor_shaft_angle_error_accept s = true) :
    (parse_motor_shaft_angle_error_step s).result (.error .InvalidPacket)
      = motor_shaft_angle_error_decode s := by
  rcases s with _ | ⟨b0, _ | ⟨b1, _ | ⟨b2, _ | ⟨b3, _ | ⟨b4, tl⟩⟩⟩⟩⟩
  · simp [motor_shaft_angle_error_accept, nth] at h
  · simp [motor_shaft_angle_error_accept, nth] at h
  · simp [motor_shaft_angle_error_accept, nth] at h
  · simp [motor_shaft_angle_error_accept, nth] at h
  · simp [motor_shaft_angle_error_accept, nth] at h
  · simp only [motor_shaft_angle_error_accept, nth, Bool.and_eq_true, decide_eq_true_eq] at h
    obtain ⟨⟨⟨ha, -⟩, h4⟩, hc⟩ := h
    simp [parse_motor_shaft_angle_error_step, motor_shaft_angle_error_decode, nth,
      ha, h4, hc, Step.result]

theorem parse_encoder_step_isStop (s : List Nat) :
    (parse_encoder_step s).isStop = encoder_accept s := by
  rcases s with _ | ⟨b0, _ | ⟨b1, _ | ⟨b2, _ | ⟨b3, _ | ⟨b4, _ | ⟨b5, _ | ⟨b6, _ | ⟨b7, tl⟩⟩⟩⟩⟩⟩⟩⟩
  · simp [parse_encoder_step, encoder_accept, nth, Step.isStop]
  · simp [parse_encoder_step, encoder_accept, nth, Step.isStop]
  · simp [parse_encoder_step, encoder_accept, nth, Step.isStop]
  · simp [parse_encoder_step, encoder_accept, nth, Step.isStop]
  · simp [parse_encoder_step, encoder_accept, nth, Step.isStop]
  · simp [parse_encoder_step, encoder_accept, nth, Step.isStop]
  · cases ha : addr_ok b0
    · simp [parse_encoder_step, encoder_accept, nth, Step.isStop, ha]
    · simp [parse_encoder_step, encoder_accept, nth, Step.isStop, ha]
  · cases ha : addr_ok b0
    · simp [parse_encoder_step, encoder_accept, nth, Step.isStop, ha]
    · simp [parse_encoder_step, encoder_accept, nth, Step.isStop, ha]
  · cases ha : addr_ok b0
    · simp [parse_encoder_step, encoder_accept, nth, Step.isStop, ha]
    · by_cases hc : (b0 + b1 + b2 + b3 + b4 + b5 + b6) % 256 = b7
      · simp [parse_encoder_step, encoder_accept, nth, Step.isStop, ha, hc]
      · simp [parse_encoder_step, encoder_accept, nth, Step.isStop, ha, hc]

theorem parse_encoder_step_result (s : List Nat) (h : encoder_accept s = true) :
    (parse_encoder_step s).result (.err .InvalidPacket) = encoder_decode s := by
  rcases s with _ | ⟨b0, _ | ⟨b1, _ | ⟨b2, _ | ⟨b3, _ | ⟨b4, _ | ⟨b5, _ | ⟨b6, _ | ⟨b7, tl⟩⟩⟩⟩⟩⟩⟩⟩
  · simp [encoder_accept, nth] at h
  · simp [encoder_accept, nth] at h
  · simp [encoder_accept, nth] at h
  · simp [encoder_accept, nth] at h
  · simp [encoder_accept, nth] at h
  · simp [encoder_accept, nth] at h
  · simp only [encoder_accept, nth, Bool.and_eq_true, decide_eq_true_eq] at h
    obtain ⟨⟨ha, -⟩, -⟩ := h
    simp [parse_encoder_step, encoder_decode, nth, ha, Step.result]
  · simp only [encoder_accept, nth, Bool.and_eq_true, decide_eq_true_eq] at h
    obtain ⟨⟨ha, -⟩, -⟩ := h
    simp [parse_encoder_step, encoder_decode, nth, ha, Step.result]
  · simp only [encoder_accept, nth, Bool.and_eq_true, decide_eq_true_eq,
      Bool.or_eq_true] at h
    obtain ⟨⟨ha, -⟩, hrest⟩ := h
    have hc : (b0 + b1 + b2 + b3 + b4 + b5 + b6) % 256 = b7 := by
      rcases hrest with hshort | hc
      · simp [List.length_cons] at hshort
        omega
      · exact hc
    simp [parse_encoder_step, encoder_decode, nth, ha, hc, Step.result]
    rw [if_neg (by omega)]

/-! ## Parser = first-match characterizations -/

theorem parse_encoder_response_eq_first_match (data : List Nat) :
    parse_encoder_response data = encoder_first_match data :=
  scanFrom_eq_firstMatch parse_encoder_step encoder_accept (.err .InvalidPacket)
    encoder_decode parse_encoder_step_isStop parse_encoder_step_result data

theorem parse_motor_shaft_angle_response_eq_first_match (data : List Nat) :
    parse_motor_shaft_angle_response data = motor_shaft_angle_first_match data :=
  scanFrom_eq_firstMatch parse_motor_shaft_angle_response_step motor_shaft_angle_accept
    (.error .InvalidPacket) motor_shaft_angle_decode
    parse_motor_shaft_angle_response_step_isStop
    parse_motor_shaft_angle_response_step_result data

theorem parse_motor_shaft_angle_error_eq_first_match (data : List Nat) :
    parse_motor_shaft_angle_error data = motor_shaft_angle_error_first_match data :=
  scanFrom_eq_firstMatch parse_motor_shaft_angle_error_step motor_shaft_angle_error_accept
    (.error .InvalidPacket) motor_shaft_angle_error_decode
    parse_motor_shaft_angle_error_step_isStop
    parse_motor_shaft_angle_error_step_result data

theorem parse_en_pin_status_response_eq_first_match (data : List Nat) :
    parse_en_pin_status_response data = en_pin_first_match data :=
  scanFrom_eq_firstMatch parse_en_pin_status_response_step en_pin_accept
    (.error .InvalidPacket) en_pin_decode
    parse_en_pin_status_response_step_isStop
    parse_en_pin_status_response_step_result data

theorem parse_shaft_status_response_eq_first_match (data : List Nat) :
    parse_shaft_status_response data = shaft_status_first_match data := by
  unfold parse_shaft_status_response shaft_status_first_match
  by_cases h : data.length < 3
  · simp [h]
  · simp only [h, if_false]
    exact scanFrom_eq_firstMatch parse_shaft_status_response_step shaft_status_accept
      (.error .InvalidPacket) shaft_status_decode
      parse_shaft_status_response_step_isStop
      parse_shaft_status_response_step_result data

/-! ## Claims -/

/-- C1: the claim states that every response parser returns a typed Ok
or Err on every input and never reads past the end of the buffer.  The
code violates this: `parse_encoder_response` guards a candidate offset
with `idx + 5 < data.len()` (6 remaining bytes) but then reads
`data[idx..idx + 7]` and `data[idx + 7]`, which need 8.  On the 6-byte
buffer `[0xE0, 0, 0, 0, 0, 0]` (and the 7-byte variant) the guard
passes at offset 0 and the read is out of bounds — the Rust code
panics instead of returning `Err(InvalidPacket)`.  The guard of every
other parser does cover its full frame, so the slip contradicts both
the spec and the sibling code. -/
theorem claim_C1_encoder_parser_reads_out_of_bounds :
    parse_encoder_response [0xE0, 0x00, 0x00, 0x00, 0x00, 0x00] = .indexOutOfBounds ∧
    parse_encoder_response [0xE0, 0x00, 0x00, 0x00, 0x00, 0x00, 0x00] = .indexOutOfBounds := by
  decide

/-- C2 (amended): each parser scans offsets 0..len in increasing order
and is exactly the first-match functional of its stop condition, and
all failures are the same InvalidPacket error.  For the shaft-angle
and angle-error parsers the stop condition is precisely the claim's
acceptance condition (address in range, full frame available, checksum
match, and — for angle-error — trailing byte 0x00), so for them the
original first-offset/iff reading holds.  For the EN-pin and
shaft-status parsers the status-byte constraint is NOT a skip
condition: the first offset passing address + length + checksum
determines the result, and an unknown status byte there yields
InvalidPacket immediately even when a later offset would satisfy all
conditions.  For the encoder parser the length part of the stop
condition is the code's 6-byte guard, with windows of 6 or 7 bytes
stopping the scan by reading out of bounds rather than failing. -/
theorem claim_C2_parsers_are_first_match_scans (data : List Nat) :
    parse_encoder_response data = encoder_first_match data ∧
    parse_motor_shaft_angle_response data = motor_shaft_angle_first_match data ∧
    parse_motor_shaft_angle_error data = motor_shaft_angle_error_first_match data ∧
    parse_en_pin_status_response data = en_pin_first_match data ∧
    parse_shaft_status_response data = shaft_status_first_match data :=
  ⟨parse_encoder_response_eq_first_match data,
    parse_motor_shaft_angle_response_eq_first_match data,
    parse_motor_shaft_angle_error_eq_first_match data,
    parse_en_pin_status_response_eq_first_match data,
    parse_shaft_status_response_eq_first_match data⟩

/-- C2 counterexample: the claim says a parser returns InvalidPacket
if and only if NO offset satisfies all acceptance conditions
(including the status-byte constraint).  In the buffer
`[0xE0, 0x03, 0xE3, 0xE0, 0x01, 0xE1]` offset 3 satisfies every
condition (address 0xE0, 3 bytes available, checksum 0xE1 matches,
status byte 0x01), as the second and third conjuncts show, yet the
parser returns InvalidPacket because offset 0 passes the checksum with
invalid status byte 0x03 and the code returns immediately. -/
theorem claim_C2_counterexample :
    parse_en_pin_status_response [0xE0, 0x03, 0xE3, 0xE0, 0x01, 0xE1]
      = .error .InvalidPacket ∧
    en_pin_accept ([0xE0, 0x03, 0xE3, 0xE0, 0x01, 0xE1].drop 3) = true ∧
    en_pin_decode ([0xE0, 0x03, 0xE3, 0xE0, 0x01, 0xE1].drop 3) = .ok .Enabled := by
  decide

/-- C6 (amended): prepending bytes before a valid frame does not change
the decoded result PROVIDED the scan never stops at an offset inside
the prepended prefix (no prefix offset passes that parser's
address + length + checksum stop condition; for the encoder parser this
includes its out-of-bounds windows).  The original claim quantifies
over arbitrary garbage and is refuted by `claim_C6_counterexample`.
One conjunct per parser; each also shows the stand-alone frame decodes
successfully. -/
theorem claim_C6_prefix_sync_tolerance :
    (∀ (G : List Nat) (b0 b1 b2 b3 b4 b5 b6 b7 : Nat),
        addr_ok b0 = true →
        (b0 + b1 + b2 + b3 + b4 + b5 + b6) % 256 = b7 →
        (∀ i, i < G.length →
          (parse_encoder_step ((G ++ [b0, b1, b2, b3, b4, b5, b6, b7]).drop i)).isStop
            = false) →
        parse_encoder_response (G ++ [b0, b1, b2, b3, b4, b5, b6, b7])
            = parse_encoder_response [b0, b1, b2, b3, b4, b5, b6, b7] ∧
        parse_encoder_response [b0, b1, b2, b3, b4, b5, b6, b7]
            = .ok ⟨i32_from_be b1 b2 b3 b4, u16_from_be b5 b6⟩) ∧
    (∀ (G : List Nat) (b0 b1 b2 b3 b4 b5 : Nat),
        addr_ok b0 = true →
        (b0 + b1 + b2 + b3 + b4) % 256 = b5 →
        (∀ i, i < G.length →
          (parse_motor_shaft_angle_response_step
            ((G ++ [b0, b1, b2, b3, b4, b5]).drop i)).isStop = false) →
        parse_motor_shaft_angle_response (G ++ [b0, b1, b2, b3, b4, b5])
            = parse_motor_shaft_angle_response [b0, b1, b2, b3, b4, b5] ∧
        parse_motor_shaft_angle_response [b0, b1, b2, b3, b4, b5]
            = .ok ⟨i32_from_be b1 b2 b3 b4⟩) ∧
    (∀ (G : List Nat) (b0 b1 b2 b3 : Nat),
        addr_ok b0 = true →
        (b0 + b1 + b2) % 256 = b3 →
        (∀ i, i < G.length →
          (parse_motor_shaft_angle_error_step
            ((G ++ [b0, b1, b2, b3, 0x00]).drop i)).isStop = false) →
        parse_motor_shaft_angle_error (G ++ [b0, b1, b2, b3, 0x00])
            = parse_motor_shaft_angle_error [b0, b1, b2, b3, 0x00] ∧
        parse_motor_shaft_angle_error [b0, b1, b2, b3, 0x00]
            = .ok ⟨i16_from_be b1 b2⟩) ∧
    (∀ (G : List Nat) (b0 b1 b2 : Nat),
        addr_ok b0 = true →
        (b0 + b1) % 256 = b2 →
        (b1 = 0x00 ∨ b1 = 0x01 ∨ b1 = 0x02) →
        (∀ i, i < G.length →
          (parse_en_pin_status_response_step ((G ++ [b0, b1, b2]).drop i)).isStop
            = false) →
        parse_en_pin_status_response (G ++ [b0, b1, b2])
            = parse_en_pin_status_response [b0, b1, b2] ∧
        (∃ st, parse_en_pin_status_response [b0, b1, b2] = .ok st)) ∧
    (∀ (G : List Nat) (b0 b1 b2 : Nat),
        addr_ok b0 = true →
        (b0 + b1) % 256 = b2 →
        (b1 = 0x00 ∨ b1 = 0x01 ∨ b1 = 0x02) →
        (∀ i, i < G.length →
          (parse_shaft_status_response_step ((G ++ [b0, b1, b2]).drop i)).isStop
            = false) →
        parse_shaft_status_response (G ++ [b0, b1, b2])
            = parse_shaft_status_response [b0, b1, b2] ∧
        (∃ st, parse_shaft_status_response [b0, b1, b2] = .ok st)) := by
  refine ⟨?_, ?_, ?_, ?_, ?_⟩
  · intro G b0 b1 b2 b3 b4 b5 b6 b7 ha hc hG
    constructor
    · exact scanFrom_append parse_encoder_step (.err .InvalidPacket) G _ hG
    · simp [parse_encoder_response, scanFrom, parse_encoder_step, ha, hc]
  · intro G b0 b1 b2 b3 b4 b5 ha hc hG
    constructor
    · exact scanFrom_append parse_motor_shaft_angle_response_step (.error .InvalidPacket) G _ hG
    · simp [parse_motor_shaft_angle_response, scanFrom,
        parse_motor_shaft_angle_response_step, ha, hc]
  · intro G b0 b1 b2 b3 ha hc hG
    constructor
    · exact scanFrom_append parse_motor_shaft_angle_error_step (.error .InvalidPacket) G _ hG
    · simp [parse_motor_shaft_angle_error, scanFrom,
        parse_motor_shaft_angle_error_step, ha, hc]
  · intro G b0 b1 b2 ha hc hst hG
    constructor
    · exact scanFrom_append parse_en_pin_status_response_step (.error .InvalidPacket) G _ hG
    · rcases hst with h1 | h1 | h1
      · subst h1
        have hc2 : b0 % 256 = b2 := by simpa using hc
        exact ⟨.Error, by simp [parse_en_pin_status_response, scanFrom,
          parse_en_pin_status_response_step, ha, hc2]⟩
      · subst h1
        exact ⟨.Enabled, by simp [parse_en_pin_status_response, scanFrom,
          parse_en_pin_status_response_step, ha, hc]⟩
      · subst h1
        exact ⟨.Disabled, by simp [parse_en_pin_status_response, scanFrom,
          parse_en_pin_status_response_step, ha, hc]⟩
  · intro G b0 b1 b2 ha hc hst hG
    constructor
    · show (if (G ++ [b0, b1, b2]).length < 3 then Except.error Error.InvalidPacket
          else scanFrom parse_shaft_status_response_step (.error .InvalidPacket)
            (G ++ [b0, b1, b2])) = _
      rw [if_neg (by simp)]
      rw [scanFrom_append parse_shaft_status_response_step (.error .InvalidPacket) G _ hG]
      rfl
    · rcases hst with h1 | h1 | h1
      · subst h1
        have hc2 : b0 % 256 = b2 := by simpa using hc
        exact ⟨.Error, by simp [parse_shaft_status_response, scanFrom,
          parse_shaft_status_response_step, ha, hc2]⟩
      · subst h1
        exact ⟨.Blocked, by simp [parse_shaft_status_response, scanFrom,
          parse_shaft_status_response_step, ha, hc]⟩
      · subst h1
        exact ⟨.Unblocked, by simp [parse_shaft_status_response, scanFrom,
          parse_shaft_status_response_step, ha, hc]⟩

/-- C6 counterexample: the claim holds for EVERY garbage prefix G.
Take G itself to be a stale valid EN-pin frame meaning Enabled and F a
valid frame meaning Disabled: parsing G ++ F decodes G's frame, not
F's, so the decoded result changes. -/
theorem claim_C6_counterexample :
    parse_en_pin_status_response ([0xE0, 0x01, 0xE1] ++ [0xE0, 0x02, 0xE2])
      = .ok .Enabled ∧
    parse_en_pin_status_response [0xE0, 0x02, 0xE2] = .ok .Disabled := by
  decide

/-- C3: every successful command build returns exactly
`[address, opcode, ...payload, checksum]` with an opcode-specific fixed
byte count: enable_motor is the 3 bytes [address, opcode, payload] plus
the checksum (4 in total), run_motor is 7 bytes plus the checksum (8 in
total); run_motor's payload is `speed ||| dir_mask` (mask 0x00 for
Clockwise, 0x80 for CounterClockwise) followed by the 32-bit pulse
count in big-endian order (the last conjuncts recombine the bytes and
pin down the two mask values). -/
theorem claim_C3_frame_layout :
    (∀ (d : Driver) (e : Bool),
        (d.enable_motor e).1
          = [d.address, cmd.ENABLE_MOTOR, if e then 1 else 0,
              (d.address + cmd.ENABLE_MOTOR + (if e then 1 else 0)) % 256] ∧
        (d.enable_motor e).1.length = 3 + 1) ∧
    (∀ (d : Driver) (dir : RotationDirection) (speed pulses : Nat),
        speed ≤ MAX_SPEED →
        (d.run_motor dir speed pulses).1
          = .ok [d.address, cmd.RUN_MOTOR, speed ||| dir.dir_mask,
              pulses / 2 ^ 24 % 256, pulses / 2 ^ 16 % 256, pulses / 2 ^ 8 % 256,
              pulses % 256,
              (d.address + cmd.RUN_MOTOR + (speed ||| dir.dir_mask)
                + pulses / 2 ^ 24 % 256 + pulses / 2 ^ 16 % 256 + pulses / 2 ^ 8 % 256
                + pulses % 256) % 256] ∧
        (∀ out, (d.run_motor dir speed pulses).1 = .ok out → out.length = 7 + 1)) ∧
    (∀ pulses : Nat, pulses < 2 ^ 32 →
        (u32_to_be_bytes pulses).foldl (fun acc b => acc * 256 + b) 0 = pulses) ∧
    RotationDirection.Clockwise.dir_mask = 0x00 ∧
    RotationDirection.CounterClockwise.dir_mask = 0x80 := by
  refine ⟨?_, ?_, ?_, rfl, rfl⟩
  · intro d e
    constructor
    · show (d.build_command _).1 = _
      rw [build_command_fst, calculate_checksum_eq_sum]
      cases e <;> (simp; try omega)
    · cases e <;> rfl
  · intro d dir speed pulses h
    have hn : ¬ speed > MAX_SPEED := by omega
    have hr : (d.run_motor dir speed pulses).1
        = .ok (d.build_command ([d.address, cmd.RUN_MOTOR, speed ||| dir.dir_mask]
            ++ u32_to_be_bytes pulses)).1 := by
      simp [Driver.run_motor, hn]
    constructor
    · rw [hr, build_command_fst, calculate_checksum_eq_sum]
      refine congrArg Except.ok ?_
      generalize speed ||| dir.dir_mask = x
      simp [u32_to_be_bytes]
      omega
    · intro out hout
      rw [hr] at hout
      injection hout with h2
      rw [← h2]
      rfl
  · intro pulses h
    simp [u32_to_be_bytes]
    omega

/-- C4: each bounded-parameter builder rejects a parameter above its
documented maximum with InvalidValue, produces no bytes, and leaves the
driver (address and internal buffer) unchanged; the boundary value
itself succeeds. -/
theorem claim_C4_bounds_validation :
    (∀ (d : Driver) (dir : RotationDirection) (speed pulses : Nat), MAX_SPEED < speed →
        d.run_motor dir speed pulses = (.error .InvalidValue, d)) ∧
    (∀ (d : Driver) (dir : RotationDirection) (pulses : Nat),
        ∃ out d2, d.run_motor dir MAX_SPEED pulses = (.ok out, d2)) ∧
    (∀ (d : Driver) (dir : RotationDirection) (speed : Nat), MAX_SPEED < speed →
        d.run_with_constant_speed dir speed = (.error .InvalidValue, d)) ∧
    (∀ (d : Driver) (dir : RotationDirection),
        ∃ out d2, d.run_with_constant_speed dir MAX_SPEED = (.ok out, d2)) ∧
    (∀ (d : Driver) (step_index : Nat), MAX_SUBDIVISION_INDEX < step_index →
        d.set_subdivision step_index = (.error .InvalidValue, d)) ∧
    (∀ d : Driver, ∃ out d2, d.set_subdivision MAX_SUBDIVISION_INDEX = (.ok out, d2)) ∧
    (∀ (d : Driver) (index : Nat), MAX_CURRENT_INDEX < index →
        d.set_current_limit index = (.error .InvalidValue, d)) ∧
    (∀ d : Driver, ∃ out d2, d.set_current_limit MAX_CURRENT_INDEX = (.ok out, d2)) ∧
    (∀ (d : Driver) (speed : Nat), MAX_ZERO_SPEED < speed →
        d.set_zero_speed speed = (.error .InvalidValue, d)) ∧
    (∀ d : Driver, ∃ out d2, d.set_zero_speed MAX_ZERO_SPEED = (.ok out, d2)) ∧
    (∀ (d : Driver) (value : Nat), MAX_TORQUE_LIMIT < value →
        d.set_max_torque value = (.error .InvalidValue, d)) ∧
    (∀ d : Driver, ∃ out d2, d.set_max_torque MAX_TORQUE_LIMIT = (.ok out, d2)) := by
  refine ⟨?_, ?_, ?_, ?_, ?_, ?_, ?_, ?_, ?_, ?_, ?_, ?_⟩
  · intro d dir speed pulses h
    simp [Driver.run_motor, h]
  · intro d dir pulses
    exact ⟨_, _, by rw [Driver.run_motor, if_neg (by decide)]⟩
  · intro d dir speed h
    simp [Driver.run_with_constant_speed, h]
  · intro d dir
    exact ⟨_, _, by rw [Driver.run_with_constant_speed, if_neg (by decide)]⟩
  · intro d step_index h
    simp [Driver.set_subdivision, h]
  · intro d
    exact ⟨_, _, by rw [Driver.set_subdivision, if_neg (by decide)]⟩
  · intro d index h
    simp [Driver.set_current_limit, h]
  · intro d
    exact ⟨_, _, by rw [Driver.set_current_limit, if_neg (by decide)]⟩
  · intro d speed h
    simp [Driver.set_zero_speed, h]
  · intro d
    exact ⟨_, _, by rw [Driver.set_zero_speed, if_neg (by decide)]⟩
  · intro d value h
    simp [Driver.set_max_torque, h]
  · intro d
    exact ⟨_, _, by rw [Driver.set_max_torque, if_neg (by decide)]⟩

/-- C5: the last byte of every frame a command builder returns is the
mod-256 wraparound sum of all preceding bytes of the frame.  The first
conjunct states it for the shared build_command (for every address,
opcode, and payload); the others instantiate it for every builder,
with the fallible builders quantified over their successful outputs. -/
theorem claim_C5_checksum_is_wraparound_sum :
    (∀ (d : Driver) (bytes : List Nat),
        checksum_ok (d.build_command bytes).1 ∧
        ((d.build_command bytes).1).dropLast = bytes) ∧
    (∀ (d : Driver) (e : Bool), checksum_ok (d.enable_motor e).1) ∧
    (∀ d : Driver, checksum_ok (d.stop).1) ∧
    (∀ d : Driver, checksum_ok (d.calibrate_encoder).1) ∧
    (∀ (d : Driver) (operation : SaveClearStatus),
        checksum_ok (d.save_clear_status operation).1) ∧
    (∀ (d : Driver) (logic : EnLogic), checksum_ok (d.set_enable_logic logic).1) ∧
    (∀ (d : Driver) (dir : RotationDirection), checksum_ok (d.set_direction dir).1) ∧
    (∀ (d : Driver) (e : Bool), checksum_ok (d.set_auto_screen_off e).1) ∧
    (∀ (d : Driver) (e : Bool), checksum_ok (d.set_stall_protection e).1) ∧
    (∀ (d : Driver) (e : Bool), checksum_ok (d.set_interpolation e).1) ∧
    (∀ (d : Driver) (mode : ZeroMode), checksum_ok (d.set_zero_mode mode).1) ∧
    (∀ d : Driver, checksum_ok (d.set_current_as_zero).1) ∧
    (∀ d : Driver, checksum_ok (d.go_to_zero).1) ∧
    (∀ (d : Driver) (dir : RotationDirection), checksum_ok (d.set_zero_direction dir).1) ∧
    (∀ (d : Driver) (value : Nat), checksum_ok (d.set_position_kp value).1) ∧
    (∀ (d : Driver) (value : Nat), checksum_ok (d.set_position_ki value).1) ∧
    (∀ (d : Driver) (value : Nat), checksum_ok (d.set_position_kd value).1) ∧
    (∀ (d : Driver) (value : Nat), checksum_ok (d.set_acceleration value).1) ∧
    (∀ d : Driver, checksum_ok (d.read_shaft_status).1) ∧
    (∀ d : Driver, checksum_ok (d.read_encoder_value).1) ∧
    (∀ d : Driver, checksum_ok (d.read_pulse_count).1) ∧
    (∀ d : Driver, checksum_ok (d.read_motor_shaft_angle).1) ∧
    (∀ d : Driver, checksum_ok (d.read_en_pin_status).1) ∧
    (∀ d : Driver, checksum_ok (d.read_motor_shaft_angle_error).1) ∧
    (∀ d : Driver, checksum_ok (d.read_release_status).1) ∧
    (∀ (d : Driver) (dir : RotationDirection) (speed pulses : Nat) (out : List Nat)
        (d2 : Driver), d.run_motor dir speed pulses = (.ok out, d2) → checksum_ok out) ∧
    (∀ (d : Driver) (dir : RotationDirection) (speed : Nat) (out : List Nat) (d2 : Driver),
        d.run_with_constant_speed dir speed = (.ok out, d2) → checksum_ok out) ∧
    (∀ (d : Driver) (step_index : Nat) (out : List Nat) (d2 : Driver),
        d.set_subdivision step_index = (.ok out, d2) → checksum_ok out) ∧
    (∀ (d : Driver) (index : Nat) (out : List Nat) (d2 : Driver),
        d.set_current_limit index = (.ok out, d2) → checksum_ok out) ∧
    (∀ (d : Driver) (speed : Nat) (out : List Nat) (d2 : Driver),
        d.set_zero_speed speed = (.ok out, d2) → checksum_ok out) ∧
    (∀ (d : Driver) (value : Nat) (out : List Nat) (d2 : Driver),
        d.set_max_torque value = (.ok out, d2) → checksum_ok out) := by
  have hfall : ∀ (d : Driver) (bytes : List Nat) (cnd : Prop) [Decidable cnd]
      (out : List Nat) (d2 : Driver),
      ((if cnd then ((.error .InvalidValue, d) : Except Error (List Nat) × Driver)
        else (.ok (d.build_command bytes).1, (d.build_command bytes).2))
          = (.ok out, d2)) → checksum_ok out := by
    intro d bytes cnd _ out d2 h
    by_cases hc : cnd
    · simp [hc] at h
    · simp [hc] at h
      obtain ⟨h1, -⟩ := h
      rw [← h1]
      exact checksum_ok_build_command d bytes
  refine ⟨fun d bytes => ⟨checksum_ok_build_command d bytes, ?_⟩,
    fun d e => checksum_ok_build_command d _,
    fun d => checksum_ok_build_command d _,
    fun d => checksum_ok_build_command d _,
    fun d operation => checksum_ok_build_command d _,
    fun d logic => checksum_ok_build_command d _,
    fun d dir => checksum_ok_build_command d _,
    fun d e => checksum_ok_build_command d _,
    fun d e => checksum_ok_build_command d _,
    fun d e => checksum_ok_build_command d _,
    fun d mode => checksum_ok_build_command d _,
    fun d => checksum_ok_build_command d _,
    fun d => checksum_ok_build_command d _,
    fun d dir => checksum_ok_build_command d _,
    fun d value => checksum_ok_build_command d _,
    fun d value => checksum_ok_build_command d _,
    fun d value => checksum_ok_build_command d _,
    fun d value => checksum_ok_build_command d _,
    fun d => checksum_ok_build_command d _,
    fun d => checksum_ok_build_command d _,
    fun d => checksum_ok_build_command d _,
    fun d => checksum_ok_build_command d _,
    fun d => checksum_ok_build_command d _,
    fun d => checksum_ok_build_command d _,
    fun d => checksum_ok_build_command d _,
    fun d dir speed pulses out d2 h => hfall d _ _ out d2 h,
    fun d dir speed out d2 h => hfall d _ _ out d2 h,
    fun d step_index out d2 h => hfall d _ _ out d2 h,
    fun d index out d2 h => hfall d _ _ out d2 h,
    fun d speed out d2 h => hfall d _ _ out d2 h,
    fun d value out d2 h => hfall d _ _ out d2 h⟩
  rw [build_command_fst, List.dropLast_concat]

/-- C8: encoding is deterministic and independent of the scratch
buffer: build_command's returned bytes are a pure function of the
input bytes; two drivers with the same address produce byte-identical
frames regardless of their buffer contents; and calling a builder
twice in a row returns the same bytes (the decoders are pure functions
of the input buffer by construction). -/
theorem claim_C8_encode_is_deterministic_and_buffer_independent :
    (∀ (d : Driver) (bytes : List Nat),
        (d.build_command bytes).1 = bytes ++ [calculate_checksum bytes]) ∧
    (∀ (d1 d2 : Driver), d1.address = d2.address →
        (∀ e : Bool, (d1.enable_motor e).1 = (d2.enable_motor e).1) ∧
        (∀ (dir : RotationDirection) (speed pulses : Nat),
          (d1.run_motor dir speed pulses).1 = (d2.run_motor dir speed pulses).1) ∧
        (∀ value : Nat, (d1.set_max_torque value).1 = (d2.set_max_torque value).1) ∧
        (∀ bytes : List Nat, (d1.build_command bytes).1 = (d2.build_command bytes).1)) ∧
    (∀ (d : Driver) (e : Bool),
        (((d.enable_motor e).2).enable_motor e).1 = (d.enable_motor e).1) ∧
    (∀ (d : Driver) (dir : RotationDirection) (speed pulses : Nat),
        (((d.run_motor dir speed pulses).2).run_motor dir speed pulses).1
          = (d.run_motor dir speed pulses).1) := by
  refine ⟨fun d bytes => build_command_fst d bytes, ?_, ?_, ?_⟩
  · intro d1 d2 h
    refine ⟨?_, ?_, ?_, ?_⟩
    · intro e
      simp [Driver.enable_motor, build_command_fst, h]
    · intro dir speed pulses
      by_cases hs : speed > MAX_SPEED
      · simp [Driver.run_motor, hs]
      · simp [Driver.run_motor, hs, build_command_fst, h]
    · intro value
      by_cases hv : value > MAX_TORQUE_LIMIT
      · simp [Driver.set_max_torque, hv]
      · simp [Driver.set_max_torque, hv, build_command_fst, h]
    · intro bytes
      simp [build_command_fst]
  · intro d e
    rfl
  · intro d dir speed pulses
    by_cases hs : speed > MAX_SPEED
    · simp [Driver.run_motor, hs]
    · simp [Driver.run_motor, hs, build_command_fst, build_command_address]

/-- C9: set_auto_screen_off, set_stall_protection, and
set_interpolation encode the boolean inverted on the wire (payload
byte u8::from(!enable): 0x00 when enable is true, 0x01 when false),
unlike enable_motor which encodes u8::from(enable). -/
theorem claim_C9_inverted_boolean_payloads (d : Driver) (e : Bool) :
    nth (d.set_auto_screen_off e).1 2 = (if e then 0x00 else 0x01) ∧
    nth (d.set_stall_protection e).1 2 = (if e then 0x00 else 0x01) ∧
    nth (d.set_interpolation e).1 2 = (if e then 0x00 else 0x01) ∧
    nth (d.enable_motor e).1 2 = (if e then 0x01 else 0x00) := by
  cases e <;> exact ⟨rfl, rfl, rfl, rfl⟩

/-- Witness for C3: run_motor at speed 0x40 (within bounds) and pulse
count 0x00010203, counter-clockwise, on the default driver. -/
theorem claim_C3_witness :
    (Driver.default.run_motor RotationDirection.CounterClockwise 0x40 0x00010203).1
      = .ok [Driver.default.address, cmd.RUN_MOTOR,
          0x40 ||| RotationDirection.CounterClockwise.dir_mask,
          0x00010203 / 2 ^ 24 % 256, 0x00010203 / 2 ^ 16 % 256,
          0x00010203 / 2 ^ 8 % 256, 0x00010203 % 256,
          (Driver.default.address + cmd.RUN_MOTOR
            + (0x40 ||| RotationDirection.CounterClockwise.dir_mask)
            + 0x00010203 / 2 ^ 24 % 256 + 0x00010203 / 2 ^ 16 % 256
            + 0x00010203 / 2 ^ 8 % 256 + 0x00010203 % 256) % 256] ∧
    (u32_to_be_bytes 0x00010203).foldl (fun acc b => acc * 256 + b) 0 = 0x00010203 :=
  ⟨(claim_C3_frame_layout.2.1 Driver.default RotationDirection.CounterClockwise
      0x40 0x00010203 (by decide)).1,
    claim_C3_frame_layout.2.2.1 0x00010203 (by decide)⟩

/-- Witness for C4: torque 0x4B1 rejected with the driver unchanged,
torque 0x4B0 (boundary) accepted, speed 0x80 rejected. -/
theorem claim_C4_witness :
    Driver.default.set_max_torque 0x4B1 = (.error .InvalidValue, Driver.default) ∧
    (∃ out d2, Driver.default.set_max_torque 0x4B0 = (.ok out, d2)) ∧
    Driver.default.run_motor RotationDirection.Clockwise 0x80 100
      = (.error .InvalidValue, Driver.default) :=
  ⟨claim_C4_bounds_validation.2.2.2.2.2.2.2.2.2.2.1 Driver.default 0x4B1 (by decide),
    claim_C4_bounds_validation.2.2.2.2.2.2.2.2.2.2.2 Driver.default,
    claim_C4_bounds_validation.1 Driver.default RotationDirection.Clockwise 0x80 100
      (by decide)⟩

/-- Witness for C5: the successful run_motor frame for speed 1 and
pulse count 256 carries checksum 0xDF = (0xE0 + 0xFD + 0x01 + 0x01) mod 256. -/
theorem claim_C5_witness :
    checksum_ok [0xE0, 0xFD, 0x01, 0x00, 0x00, 0x01, 0x00, 0xDF] :=
  claim_C5_checksum_is_wraparound_sum.2.2.2.2.2.2.2.2.2.2.2.2.2.2.2.2.2.2.2.2.2.2.2.2.2.1
    Driver.default RotationDirection.Clockwise 0x01 0x100
    [0xE0, 0xFD, 0x01, 0x00, 0x00, 0x01, 0x00, 0xDF] _ rfl

/-- Witness for C6: prepending the spec's example garbage [0xFF, 0xFE]
(neither byte is in the address range, so the scan cannot stop inside
the prefix) leaves both an encoder-value decode and an EN-pin decode
unchanged. -/
theorem claim_C6_witness :
    parse_encoder_response
        ([0xFF, 0xFE] ++ [0xE0, 0x00, 0x00, 0x00, 0x00, 0x40, 0x00, 0x20])
      = parse_encoder_response [0xE0, 0x00, 0x00, 0x00, 0x00, 0x40, 0x00, 0x20] ∧
    parse_en_pin_status_response ([0xFF, 0xFE] ++ [0xE0, 0x01, 0xE1])
      = parse_en_pin_status_response [0xE0, 0x01, 0xE1] :=
  ⟨(claim_C6_prefix_sync_tolerance.1 [0xFF, 0xFE] 0xE0 0x00 0x00 0x00 0x00 0x40 0x00 0x20
      (by decide) (by decide) (by decide)).1,
    (claim_C6_prefix_sync_tolerance.2.2.2.1 [0xFF, 0xFE] 0xE0 0x01 0xE1
      (by decide) (by decide) (by decide) (by decide)).1⟩

/-- Witness for C8: two drivers sharing address 0xE0 but with different
scratch-buffer contents emit the same enable frame. -/
theorem claim_C8_witness :
    ((Driver.mk 0xE0 (List.replicate 10 0)).enable_motor true).1
      = ((Driver.mk 0xE0 [1, 2, 3, 4, 5, 6, 7, 8, 9, 10]).enable_motor true).1 :=
  (claim_C8_encode_is_deterministic_and_buffer_independent.2.1
    (Driver.mk 0xE0 (List.replicate 10 0))
    (Driver.mk 0xE0 [1, 2, 3, 4, 5, 6, 7, 8, 9, 10]) rfl).1 true

end MksServo42
